import Mathlib

/-!
Verification of the conversational search engine of the location-based
service-search chatbot (`main.py`, `config.py`, `data_models.py`,
`osm_integration.py`).

The Python code is shallowly embedded: floats become `ℚ`, Python dicts
(whose iteration order is insertion order) become association lists,
`None`-able values become `Option`, and the two external collaborators
(the Overpass provider lookup and the Nominatim geocoder) become explicit
environment functions whose outcome also covers the
unavailable-dependency and raised-exception cases that the source
catches.  The haversine `Location.distance_to` computes with
transcendental functions over floats; since every property proved here
uses it only relationally (filter bound, sort key), the embedding takes
the distance function as an explicit parameter of the environment.
String formatting of numbers (`str`, `:.1f`) is rendered through fixed
helper functions over `ℚ`.
-/

/-! ### Python string primitives -/

/-- Does the second list start with the first?  (Structural analogue of
`List.isPrefixOf`, kept local so every concrete run reduces inside the
kernel.) -/
def leadsWith : List Char → List Char → Bool
  | [], _ => true
  | _ :: _, [] => false
  | a :: as2, b :: bs => a == b && leadsWith as2 bs

/-- Contiguous-sublist test on character lists (the empty needle is
always contained, as in Python). -/
def containsChars : List Char → List Char → Bool
  | [], needle => needle.isEmpty
  | c :: cs, needle => leadsWith needle (c :: cs) || containsChars cs needle

/-- Python `needle in hay` substring test. -/
def containsSub (hay needle : String) : Bool :=
  containsChars hay.toList needle.toList

/-- Python `str.lower` (ASCII case mapping, as used by the source). -/
def pyLower (s : String) : String := String.mk (s.toList.map Char.toLower)

/-- ASCII whitespace, the characters Python `str.strip` removes from the
inputs this program sees. -/
def isSpaceChar (c : Char) : Bool :=
  c == ' ' || c == '\t' || c == '\n' || c == '\r' || c == '\x0b' || c == '\x0c'

/-- Python `str.strip`. -/
def pyStrip (s : String) : String :=
  String.mk (((s.toList.dropWhile isSpaceChar).reverse.dropWhile isSpaceChar).reverse)

/-- Replacement engine for `pyReplace`; the fuel starts at the length of
the subject and falls by one per step while each step consumes at least
one character, so it never runs out. -/
def pyReplaceFuel (pat rep : List Char) : Nat → List Char → List Char
  | _, [] => []
  | 0, l => l
  | f + 1, c :: cs =>
    if !pat.isEmpty && leadsWith pat (c :: cs) then
      rep ++ pyReplaceFuel pat rep f ((c :: cs).drop pat.length)
    else c :: pyReplaceFuel pat rep f cs

/-- Python `str.replace` (left-to-right, non-overlapping; the program
only ever replaces the nonempty patterns `"_"` and `" "`, so the
empty-pattern edge case of Python is irrelevant and maps to the
identity here). -/
def pyReplace (s pat rep : String) : String :=
  String.mk (pyReplaceFuel pat.toList rep.toList s.toList.length s.toList)

/-- Python `message.isdigit()` (true on a nonempty all-digit string)
combined with `int(message)`: `some` of the decimal value exactly when
the string is a nonempty digit sequence. -/
def pyToNat? (s : String) : Option Nat :=
  if !s.toList.isEmpty && s.toList.all (fun c => c.isDigit) then
    some (s.toList.foldl (fun n c => 10 * n + (c.toNat - 48)) 0)
  else none

/-- Helper for `pyWords`: accumulates whitespace-separated words in
reverse. -/
def pyWordsAux (acc : List (List Char)) (cur : List Char) :
    List Char → List (List Char)
  | [] => if cur.isEmpty then acc else cur.reverse :: acc
  | c :: cs =>
    if isSpaceChar c then
      if cur.isEmpty then pyWordsAux acc [] cs
      else pyWordsAux (cur.reverse :: acc) [] cs
    else pyWordsAux acc (c :: cur) cs

/-- Python `str.split()` with no argument: whitespace-run separated
words, empty pieces dropped. -/
def pyWords (s : String) : List String :=
  ((pyWordsAux [] [] s.toList).reverse).map String.mk

/-- Helper for `pyTitle`: tracks whether the previous character was
alphabetic, as Python `str.title` does. -/
def pyTitleAux : Bool → List Char → List Char
  | _, [] => []
  | prevAlpha, c :: cs =>
    (if c.isAlpha then (if prevAlpha then c.toLower else c.toUpper) else c)
      :: pyTitleAux c.isAlpha cs

/-- Python `str.title` (ASCII case mapping, as used by the source). -/
def pyTitle (s : String) : String := String.mk (pyTitleAux false s.toList)

/-- Leftmost maximal digit run of a character list, as Python
`re.findall(r"\d+", s)[0]` finds it. -/
def firstDigitRun : List Char → Option (List Char)
  | [] => none
  | c :: cs =>
    if c.isDigit then some (c :: cs.takeWhile (fun d => d.isDigit))
    else firstDigitRun cs

/-- Decimal value of a digit run, as Python `int` reads it. -/
def digitsToNat (cs : List Char) : Nat :=
  cs.foldl (fun n c => 10 * n + (c.toNat - 48)) 0

/-- First integer token of a string: `re.findall(r"\d+", message)` and
`int(numbers[0])` in `_handle_budget_input`. -/
def firstIntToken (s : String) : Option Nat :=
  (firstDigitRun s.toList).map digitsToNat

/-- Python `f"{x:.1f}"` for a nonnegative rational: round to one decimal
place (the source only ever formats nonnegative distances). -/
def fmt1 (q : ℚ) : String :=
  let m : ℤ := ⌊q * 10 + 1 / 2⌋
  toString (m / 10) ++ "." ++ toString (m % 10)

/-! ### Data model (`data_models.py`) -/

/-- Budget categories (`BudgetRange` enum in `data_models.py`). -/
inductive BudgetRange where
  | LOW_COST
  | MID_RANGE
  | PREMIUM
deriving DecidableEq

/-- The `value` of each `BudgetRange` member. -/
def BudgetRange.val : BudgetRange → String
  | .LOW_COST => "low-cost"
  | .MID_RANGE => "mid-range"
  | .PREMIUM => "premium"

/-- `Location` dataclass.  Coordinates are rationals standing for the
source's floats. -/
structure Location where
  latitude : ℚ
  longitude : ℚ
  name : String := ""
  landmark : String := ""
deriving DecidableEq

/-- `ServiceProvider` dataclass. -/
structure ServiceProvider where
  id : String
  name : String
  service_type : String
  location : Location
  price_range : ℚ × ℚ
  rating : ℚ
  description : String
  accessibility : String
  contact_info : String
  operating_hours : String
deriving DecidableEq

/-- `ChatState` enum in `main.py`. -/
inductive ChatState where
  | WELCOME
  | ASK_LOCATION
  | ASK_SERVICE
  | ASK_BUDGET
  | SHOW_RESULTS
  | COMPARE_OPTIONS
  | GET_MORE_DETAILS
  | CONFIRM_CHOICE
deriving DecidableEq

/-! ### Collaborator environments

The source consults two external collaborators: the Overpass API
(`get_service_providers_from_osm`) and the Nominatim geocoder
(`geocode_location`).  Both are modelled as functions supplied by the
environment; the outcome types make the failure modes the source
catches (`ImportError` fallback, raised exceptions, empty answers)
explicit. -/

/-- An OpenStreetMap element as consumed by
`get_service_providers_from_osm`: coordinates plus its tag table. -/
structure OsmNode where
  lat : ℚ
  lon : ℚ
  tags : List (String × String)
deriving DecidableEq

/-- Outcome of one `get_service_providers_from_osm` call as seen from
`search_providers`: the OSM stack may be missing (`unavailable`, the
`ImportError` path, in which case the whole `if OSM_AVAILABLE` block is
skipped), the call may raise (`failure`, caught at line 79 of
`main.py`), or it returns one node list per Overpass tag query (a
per-tag query that raises is modelled as an empty node list, matching
the `continue` in the per-tag `except`). -/
inductive OsmOutcome where
  | unavailable
  | failure
  | success (nodeQueries : List (List OsmNode))

/-- A Nominatim geocoder answer (`geopy` location object): coordinates
and the display address used for landmark extraction. -/
structure GeoResult where
  latitude : ℚ
  longitude : ℚ
  address : String
deriving DecidableEq

/-- The collaborator environment of one chatbot instance: the distance
function (haversine over floats in `Location.distance_to`, used here
only relationally), the Overpass lookup keyed by the call arguments of
`get_service_providers_from_osm`, and the geocoder keyed by the query
string (`Except.error` models a raised exception, `Except.ok none` a
miss). -/
structure ChatEnv where
  dist : Location → Location → ℚ
  osm : String → Location → ℚ → OsmOutcome
  geo : String → Except Unit (Option GeoResult)

/-! ### Configuration (`config.py`) -/

/-- `CHATBOT_CONFIG["max_search_distance_km"]`. -/
def maxSearchDistanceKm : ℚ := 10

/-- `CHATBOT_CONFIG["default_budget_ranges"]`. -/
def defaultBudgetRanges : (ℚ × ℚ) × (ℚ × ℚ) × (ℚ × ℚ) :=
  ((0, 50), (50, 150), (150, 500))

/-- `SERVICE_KEYWORDS`, in source (insertion) order. -/
def serviceKeywords : List (String × List String) :=
  [ ("auto_repair", ["auto", "car", "repair", "mechanic", "vehicle", "automotive"])
  , ("medical", ["medical", "clinic", "doctor", "health", "healthcare", "hospital"])
  , ("hair_salon", ["hair", "salon", "cut", "style", "barber", "beauty"])
  , ("restaurant", ["restaurant", "food", "eat", "dining", "cafe", "diner"])
  , ("plumbing", ["plumbing", "plumber", "pipes", "water", "leak"])
  , ("electrical", ["electrical", "electrician", "wiring", "power", "lights"])
  , ("cleaning", ["cleaning", "cleaner", "maid", "housekeeping"])
  , ("tutoring", ["tutoring", "tutor", "teaching", "lessons", "education"]) ]

/-- `load_service_providers` returns the empty list (`config.py` line 75). -/
def load_service_providers : List ServiceProvider := []

/-! ### Tanzania gazetteer (`osm_integration.py`, `TanzaniaLocations`) -/

/-- `TanzaniaLocations.MAJOR_CITIES`, in source order. -/
def majorCities : List (String × ℚ × ℚ) :=
  [ ("dar es salaam", -6.7924, 39.2083)
  , ("dodoma", -6.1730, 35.7419)
  , ("mwanza", -2.5167, 32.9000)
  , ("arusha", -3.3667, 36.6833)
  , ("mbeya", -8.9000, 33.4500)
  , ("morogoro", -6.8167, 37.6667)
  , ("tanga", -5.0667, 39.1000)
  , ("kigoma", -4.8833, 29.6333)
  , ("tabora", -5.0167, 32.8000)
  , ("iringa", -7.7667, 35.7000)
  , ("singida", -4.8167, 34.7500)
  , ("liuli", -11.0833, 34.6333)
  , ("musoma", -1.5000, 33.8000)
  , ("songea", -10.6833, 35.6500)
  , ("mpanda", -6.3667, 31.0500) ]

/-- `TanzaniaLocations.DAR_ES_SALAAM_AREAS`, in source order. -/
def darAreas : List (String × ℚ × ℚ) :=
  [ ("kinondoni", -6.7667, 39.1667)
  , ("ilala", -6.8167, 39.1833)
  , ("temeke", -6.8667, 39.2500)
  , ("ubungo", -6.7833, 39.2333)
  , ("kigamboni", -6.8333, 39.3167)
  , ("masaki", -6.7333, 39.2833)
  , ("mikocheni", -6.7667, 39.2333)
  , ("mlimini city", -6.7667, 39.2167)
  , ("posta", -6.8167, 39.2833)
  , ("jamhuri", -6.8000, 39.2833)
  , ("mnazi mmoja", -6.8167, 39.2833)
  , ("kariakoo", -6.8167, 39.2667)
  , ("uhuru road", -6.8167, 39.2833)
  , ("samora avenue", -6.8167, 39.2833)
  , ("kilimanjaro avenue", -6.8167, 39.2833)
  , ("azikiwe street", -6.8167, 39.2833) ]

/-- `TanzaniaLocations.DAR_LANDMARKS`, in source order. -/
def darLandmarks : List (String × ℚ × ℚ) :=
  [ ("julius nyerere international airport", -6.8781, 39.2026)
  , ("port of dar es salaam", -6.8167, 39.2833)
  , ("national museum", -6.1667, 39.2167)
  , ("state house", -6.8000, 39.2833)
  , ("uhuru monument", -6.8167, 39.2833)
  , ("kariakoo market", -6.8167, 39.2667)
  , ("mlimani city shopping mall", -6.7667, 39.2167)
  , ("slipway", -6.8167, 39.2833)
  , ("cocacola kwanza road", -6.8167, 39.2833)
  , ("garden avenue", -6.8167, 39.2833) ]

/-- `TanzaniaLocations.get_location_from_text`: cities by substring
match on the key or the key without spaces, then Dar areas likewise,
then landmarks matched when any word of the landmark occurs in the
text. -/
def tanzaniaLocFromText (text : String) : Option Location :=
  let tl := pyStrip (pyLower text)
  match majorCities.find? (fun e =>
      containsSub tl e.1 || containsSub tl (pyReplace e.1 " " "")) with
  | some e => some ⟨e.2.1, e.2.2, pyTitle e.1, pyTitle e.1⟩
  | none =>
    match darAreas.find? (fun e =>
        containsSub tl e.1 || containsSub tl (pyReplace e.1 " " "")) with
    | some e =>
      some ⟨e.2.1, e.2.2, pyTitle e.1, "Dar es Salaam - " ++ pyTitle e.1⟩
    | none =>
      match darLandmarks.find? (fun e =>
          (pyWords e.1).any (fun w => containsSub tl w)) with
      | some e => some ⟨e.2.1, e.2.2, pyTitle e.1, pyTitle e.1⟩
      | none => none

/-! ### Geocoding (`osm_integration.py`, `config.py`) -/

/-- The landmark name list scanned by
`OpenStreetMapIntegration._extract_landmark`. -/
def darLandmarkNames : List String :=
  [ "Kilimanjaro Avenue", "Samora Avenue", "Uhuru Road", "Azikiwe Street"
  , "Masaki", "Mikocheni", "Kinondoni", "Ilala", "Temeke", "Ubungo"
  , "Mlimani City", "Posta", "Jamhuri", "Mnazi Mmoja"
  , "Kariakoo Market", "Mombasa Road", "Bagamoyo Road" ]

/-- `_extract_landmark`: first known landmark occurring (case
insensitively) in the address, else the city name; empty address gives
the empty string. -/
def extractLandmark (address : String) : String :=
  if address.isEmpty then ""
  else
    match darLandmarkNames.find? (fun lm =>
        containsSub (pyLower address) (pyLower lm)) with
    | some lm => lm
    | none => "Dar es Salaam"

/-- The query string `geocode_location` sends to Nominatim: a Tanzania
context suffix is appended unless the text already mentions the
country or city by its full name. -/
def geocodeQuery (location_text : String) : String :=
  if containsSub (pyLower location_text) "dar"
      || containsSub (pyLower location_text) "es salaam" then
    location_text ++ ", Dar es Salaam, Tanzania"
  else if !(containsSub (pyLower location_text) "tanzania"
      || containsSub (pyLower location_text) "dar es salaam") then
    location_text ++ ", Dar es Salaam, Tanzania"
  else
    location_text

/-- `OpenStreetMapIntegration.geocode_location`: a raised geocoder
exception (`Except.error`) and a geocoder miss both yield `none`; a hit
is packaged with the title-cased input text as display name and the
landmark extracted from the returned address.  (The unavailable-OSM
early return is the `Except.error` case of the environment; the
per-instance cache is empty because `get_location_from_text` builds a
fresh instance per call.) -/
def geocode_location (env : ChatEnv) (location_text : String) : Option Location :=
  match env.geo (geocodeQuery location_text) with
  | .error _ => none
  | .ok none => none
  | .ok (some r) =>
    some ⟨r.latitude, r.longitude, pyTitle location_text, extractLandmark r.address⟩

/-- The fixed default location returned by `get_location_from_text`
when both the gazetteer and the geocoder fail. -/
def defaultDarLocation : Location :=
  ⟨-6.7924, 39.2083, "Dar es Salaam", "Central Business District"⟩

/-- `config.get_location_from_text`: Tanzania gazetteer first, then
OSM geocoding, then the fixed Dar es Salaam default. -/
def get_location_from_text (env : ChatEnv) (text : String) : Location :=
  match tanzaniaLocFromText text with
  | some l => l
  | none =>
    match geocode_location env text with
    | some l => l
    | none => defaultDarLocation

/-- `config.get_service_type_from_text`: first service whose keyword
list has a keyword occurring in the lowercased text, else the
normalized raw text with spaces replaced by underscores. -/
def get_service_type_from_text (text : String) : String :=
  let tl := pyStrip (pyLower text)
  match serviceKeywords.find? (fun e => e.2.any (fun kw => containsSub tl kw)) with
  | some e => e.1
  | none => pyReplace tl " " "_"

/-! ### OSM provider construction (`get_service_providers_from_osm`) -/

/-- Tag-table lookup, Python `dict.get` on `node.tags`. -/
def tagGet (tags : List (String × String)) (k : String) : Option String :=
  (tags.find? (fun t => t.1 == k)).map (fun t => t.2)

/-- `_extract_landmark_from_tags`. -/
def extractLandmarkFromTags (tags : List (String × String)) : String :=
  match tagGet tags "addr:street" with
  | some s => s
  | none =>
    match tagGet tags "addr:suburb" with
    | some s => s
    | none =>
      match tagGet tags "addr:neighbourhood" with
      | some s => s
      | none => "Dar es Salaam"

/-- `_estimate_price_range` (TZS amounts keyed by service type). -/
def estimatePriceRange (service_type : String) : ℚ × ℚ :=
  if service_type = "auto_repair" then (10000, 50000)
  else if service_type = "medical" then (5000, 20000)
  else if service_type = "hair_salon" then (3000, 15000)
  else if service_type = "restaurant" then (5000, 25000)
  else if service_type = "plumbing" then (5000, 20000)
  else if service_type = "electrical" then (3000, 15000)
  else if service_type = "cleaning" then (2000, 10000)
  else if service_type = "tutoring" then (5000, 20000)
  else (5000, 20000)

/-- `_determine_accessibility`. -/
def determineAccessibility (distance : ℚ) : String :=
  if distance ≤ 1 then "walking"
  else if distance ≤ 5 then "public_transport"
  else "vehicle"

/-- `_generate_description`. -/
def generateDescription (tags : List (String × String)) (service_type : String) : String :=
  let nm := (tagGet tags "name").getD "Service Provider"
  let description := nm ++ " - " ++ pyTitle (pyReplace service_type "_" " ") ++ " services"
  match tagGet tags "opening_hours" with
  | some h => description ++ ". Hours: " ++ h
  | none => description

/-- The service types with an Overpass tag mapping (`osm_queries` keys);
other service types make `get_service_providers_from_osm` return
immediately with no providers. -/
def osmServiceTypes : List String :=
  [ "auto_repair", "medical", "hair_salon", "restaurant"
  , "plumbing", "electrical", "cleaning", "tutoring" ]

/-- Processing of one OSM node inside `get_service_providers_from_osm`:
nodes without a `name` tag are skipped, the provider location is built
from the node, and the provider is appended only when its distance from
the user is at most the search radius. -/
def osmNodeStep (dist : Location → Location → ℚ) (service_type : String)
    (user_location : Location) (maxD : ℚ)
    (acc : List ServiceProvider) (node : OsmNode) : List ServiceProvider :=
  match tagGet node.tags "name" with
  | none => acc
  | some nm =>
    let ploc : Location := ⟨node.lat, node.lon, nm, extractLandmarkFromTags node.tags⟩
    let d := dist user_location ploc
    if d ≤ maxD then
      acc ++ [{ id := "osm_" ++ service_type ++ "_" ++ toString acc.length
              , name := nm
              , service_type := service_type
              , location := ploc
              , price_range := estimatePriceRange service_type
              , rating := 4
              , description := generateDescription node.tags service_type
              , accessibility := determineAccessibility d
              , contact_info :=
                  (tagGet node.tags "phone").getD
                    ((tagGet node.tags "contact:phone").getD "+255-XXX-XXXXXX")
              , operating_hours :=
                  (tagGet node.tags "opening_hours").getD "Mon-Sat 8AM-6PM" }]
    else acc

/-- The per-tag-query loop of `get_service_providers_from_osm`, with
the `break` once at least 20 providers were accumulated. -/
def osmQueriesLoop (dist : Location → Location → ℚ) (service_type : String)
    (user_location : Location) (maxD : ℚ) :
    List (List OsmNode) → List ServiceProvider → List ServiceProvider
  | [], acc => acc
  | q :: rest, acc =>
    let acc2 := q.foldl (osmNodeStep dist service_type user_location maxD) acc
    if 20 ≤ acc2.length then acc2
    else osmQueriesLoop dist service_type user_location maxD rest acc2

/-- `get_service_providers_from_osm` on a successful Overpass
conversation, given the node lists the per-tag queries returned. -/
def osmFromQueries (dist : Location → Location → ℚ) (service_type : String)
    (user_location : Location) (maxD : ℚ)
    (queries : List (List OsmNode)) : List ServiceProvider :=
  if osmServiceTypes.contains service_type then
    osmQueriesLoop dist service_type user_location maxD queries []
  else []

/-! ### Stable sort by key

Python `list.sort(key=...)` is a stable ascending sort by key; it is
modelled by insertion sort with a non-strict comparison, which is
extensionally the same function. -/

/-- Insert into a list, after every element whose key is strictly
smaller and before the first element whose key is at least as large. -/
def insertByKey {α : Type} (key : α → ℚ) (a : α) : List α → List α
  | [] => [a]
  | b :: l => if key a ≤ key b then a :: b :: l else b :: insertByKey key a l

/-- Stable ascending sort by key (Python `list.sort(key=...)`). -/
def sortByKey {α : Type} (key : α → ℚ) : List α → List α
  | [] => []
  | a :: l => insertByKey key a (sortByKey key l)

/-! ### Candidate search (`LocationBasedChatbot.search_providers`) -/

/-- The budget-overlap test applied at all three budget-filter sites of
`search_providers`: keep the provider when
`price_range[1] >= budget[0] and price_range[0] <= budget[1]`. -/
def budgetKeep (budget_range : Option (ℚ × ℚ)) (p : ServiceProvider) : Bool :=
  match budget_range with
  | none => true
  | some b => decide (b.1 ≤ p.price_range.2) && decide (p.price_range.1 ≤ b.2)

/-- One pass over the static provider database (the loop bodies at
lines 82-96 and 101-115 of `main.py` are identical): keep providers of
the requested service type, within the radius, and passing the budget
overlap test when a budget is given. -/
def staticMatches (dist : Location → Location → ℚ) (db : List ServiceProvider)
    (service_type : String) (user_location : Location) (maxD : ℚ)
    (budget_range : Option (ℚ × ℚ)) : List ServiceProvider :=
  db.filter (fun p =>
    p.service_type == service_type
      && !decide (maxD < dist user_location p.location)
      && budgetKeep budget_range p)

/-- `search_providers` before the final sort: OSM candidates (when the
integration is available and the call does not raise) and, whenever the
integration is available, a pass over the static database; a second
identical static pass when the combined list is empty; then the final
budget-overlap filter. -/
def search_unsorted (env : ChatEnv) (db : List ServiceProvider)
    (service_type : String) (user_location : Location)
    (max_distance : Option ℚ) (budget_range : Option (ℚ × ℚ)) :
    List ServiceProvider :=
  let maxD := max_distance.getD maxSearchDistanceKm
  let base :=
    match env.osm service_type user_location maxD with
    | .unavailable => []
    | .failure => staticMatches env.dist db service_type user_location maxD budget_range
    | .success qs =>
      osmFromQueries env.dist service_type user_location maxD qs
        ++ staticMatches env.dist db service_type user_location maxD budget_range
  let results :=
    if base.isEmpty then
      staticMatches env.dist db service_type user_location maxD budget_range
    else base
  match budget_range with
  | some b =>
    results.filter (fun p =>
      decide (b.1 ≤ p.price_range.2) && decide (p.price_range.1 ≤ b.2))
  | none => results

/-- `LocationBasedChatbot.search_providers`: the candidate pipeline
followed by the stable ascending sort on distance from the user. -/
def search_providers (env : ChatEnv) (db : List ServiceProvider)
    (service_type : String) (user_location : Location)
    (max_distance : Option ℚ) (budget_range : Option (ℚ × ℚ)) :
    List ServiceProvider :=
  sortByKey (fun p => env.dist user_location p.location)
    (search_unsorted env db service_type user_location max_distance budget_range)

/-! ### Response text (`RESPONSE_TEMPLATES`, `ACCESSIBILITY_GUIDES` and
the inline literals of `main.py`)

The template characters are transcribed byte-for-byte from the source
files (which store their emoji in a double-encoded form); numeric
placeholders are rendered with `toString` on `ℚ`/`Nat` and `fmt1` for
the `:.1f` distances. -/

/-- `RESPONSE_TEMPLATES["welcome"]`. -/
def welcomeTemplate : String :=
  "ðŸ‘‹ Hi! I\x27m your location-based service finder.\n\nI can help you find nearby service providers like auto repair shops, medical clinics, hair salons, restaurants, and more.\n\nTo get started, could you share your current location?\nYou can tell me:\nâ€¢ Your town/city name\nâ€¢ A nearby landmark\nâ€¢ Or GPS coordinates (latitude, longitude)\n\nWhat\x27s your location?"

/-- `RESPONSE_TEMPLATES["service_options"]`. -/
def serviceOptionsTemplate : String :=
  "â€¢ Auto repair\nâ€¢ Medical clinic\nâ€¢ Hair salon\nâ€¢ Restaurant\nâ€¢ Plumbing\nâ€¢ Electrical\nâ€¢ Cleaning\nâ€¢ Tutoring\nâ€¢ Other (please specify)"

/-- `RESPONSE_TEMPLATES["location_confirm"]` instantiated with the
resolved location name and the service menu. -/
def locationConfirmText (location : String) : String :=
  "âœ… Got it! I understand you\x27re near " ++ location
    ++ ".\n\nWhat service are you looking for? Here are some options:\n"
    ++ serviceOptionsTemplate ++ "\n\nWhat service do you need?"

/-- `RESPONSE_TEMPLATES["budget_prompt"]` instantiated with the service
name and the configured budget band boundaries. -/
def budgetPromptText (service : String) : String :=
  "Great! You\x27re looking for " ++ service
    ++ " services.\n\nWhat\x27s your budget range? (optional - you can say \"no preference\")\nâ€¢ Low-cost: Under $"
    ++ toString defaultBudgetRanges.1.2
    ++ "\nâ€¢ Mid-range: $" ++ toString defaultBudgetRanges.2.1.1
    ++ "-$" ++ toString defaultBudgetRanges.2.1.2
    ++ "\nâ€¢ Premium: Over $" ++ toString defaultBudgetRanges.2.2.1
    ++ "\n\nOr tell me your maximum budget (e.g., \"up to $100\")"

/-- `get_budget_category`: band of the midpoint of a price range. -/
def get_budget_category (price_range : ℚ × ℚ) : BudgetRange :=
  let avg_price := (price_range.1 + price_range.2) / 2
  if avg_price ≤ 50 then .LOW_COST
  else if avg_price ≤ 150 then .MID_RANGE
  else .PREMIUM

/-- The `accessibility_notes` table of `format_provider_info`; an
accessibility value outside the table would raise a `KeyError` in the
source and is mapped to the empty string here (no provider built by
this program carries such a value). -/
def accessibilityNote (accessibility : String) : String :=
  if accessibility = "walking" then "ðŸš¶ Walking distance"
  else if accessibility = "public_transport" then "ðŸš‡ Public transport accessible"
  else if accessibility = "vehicle" then "ðŸš— Vehicle required"
  else ""

/-- `format_provider_info`. -/
def format_provider_info (env : ChatEnv) (user_location : Location)
    (p : ServiceProvider) : String :=
  let d := env.dist user_location p.location
  "ðŸ¢ " ++ p.name
    ++ "\nðŸ’° Price: $" ++ toString p.price_range.1
    ++ "-$" ++ toString p.price_range.2
    ++ " (" ++ (get_budget_category p.price_range).val
    ++ ")\nðŸ“ Distance: " ++ fmt1 d
    ++ " km from your location\nðŸ“ Location: " ++ p.location.name
    ++ " (near " ++ p.location.landmark
    ++ ")\n" ++ accessibilityNote p.accessibility
    ++ "\nâ­ Rating: " ++ toString p.rating
    ++ "/5\nðŸ•’ Hours: " ++ p.operating_hours
    ++ "\nðŸ“ž Contact: " ++ p.contact_info
    ++ "\nðŸ“ " ++ p.description ++ "\n\n"

/-- The inline no-results message of `_handle_budget_input`. -/
def noResultsText : String :=
  "Sorry, I couldn\x27t find any providers for that service in your area.\n\nWould you like to:\n1. Try a different service type\n2. Search in a different location\n3. Or let me know what you\x27re looking for specifically?"

/-- Menu block appended to the results listing. -/
def resultsMenuText : String :=
  "Would you like to:\nâ€¢ Compare options (type \"compare\")\nâ€¢ Get more details about a specific option (type the number)\nâ€¢ See more results (type \"more\")\nâ€¢ Start a new search (type \"new\")\n\nWhat would you like to do?"

/-- The populated results listing of `_handle_budget_input`: count, the
first three providers numbered from 1, a more-options note when more
than three survive, then the menu. -/
def resultsText (env : ChatEnv) (user_location : Location)
    (results : List ServiceProvider) : String :=
  "I found " ++ toString results.length ++ " option(s) near you:\n\n"
    ++ (List.enumFrom 1 (results.take 3)).foldl
        (fun s ip => s ++ toString ip.1 ++ ". "
          ++ format_provider_info env user_location ip.2) ""
    ++ (if 3 < results.length then
          "...and " ++ toString (results.length - 3) ++ " more options.\n\n"
        else "")
    ++ resultsMenuText

/-- The invalid-selection message of `_handle_results_interaction`. -/
def invalidOptionText : String :=
  "Invalid option number. Please choose a valid number from the list."

/-- The fallback help of `_handle_results_interaction`. -/
def resultsHelpText : String :=
  "Please choose:\nâ€¢ \"compare\" to compare options\nâ€¢ \"more\" to see additional results\nâ€¢ A number (1, 2, 3, etc.) for more details about that option\nâ€¢ \"new\" to start a new search"

/-- The lead-in `_show_comparison` prepends when fewer than two results
are available. -/
def needTwoText : String :=
  "I need at least 2 options to compare. Let me show you the available options instead.\n\n"

/-- The comparison listing of `_show_comparison` for the first three
results. -/
def comparisonText (env : ChatEnv) (user_location : Location)
    (results : List ServiceProvider) : String :=
  "ðŸ“Š Comparing Options:\n\n"
    ++ (List.enumFrom 1 (results.take 3)).foldl
        (fun s ip =>
          let p := ip.2
          s ++ "Option " ++ toString ip.1 ++ ": " ++ p.name
            ++ "\nâ€¢ Price: $" ++ toString p.price_range.1
            ++ "-$" ++ toString p.price_range.2
            ++ " (" ++ (get_budget_category p.price_range).val
            ++ ")\nâ€¢ Distance: "
            ++ fmt1 (env.dist user_location p.location)
            ++ " km\nâ€¢ Rating: " ++ toString p.rating
            ++ "/5 â­\nâ€¢ Accessibility: "
            ++ pyTitle (pyReplace p.accessibility "_" " ") ++ "\n\n") ""
    ++ "Which option interests you most? (type the number)\nOr type \"back\" to return to results."

/-- The no-more-results message of `_show_more_results`. -/
def noMoreResultsText : String :=
  "No more results to show. Type \x27compare\x27 to compare options or \x27new\x27 for a new search."

/-- `ACCESSIBILITY_GUIDES` instantiated with a formatted distance; an
unknown key would raise in the source and gives the empty string here. -/
def accessibilityGuide (accessibility distance : String) : String :=
  if accessibility = "walking" then
    "This location is within walking distance (" ++ distance ++ " km)."
  else if accessibility = "public_transport" then
    "Public transportation is recommended to reach this location (" ++ distance ++ " km away)."
  else if accessibility = "vehicle" then
    "A vehicle is required to reach this destination (" ++ distance ++ " km away)."
  else ""

/-- `RESPONSE_TEMPLATES["detailed_info"]` instantiated as
`_show_detailed_info` does. -/
def detailedInfoText (p : ServiceProvider) (distance guide : String) : String :=
  "ðŸ“‹ Detailed Information:\n\nðŸ¢ " ++ p.name
    ++ "\nðŸ’° Price Range: $" ++ toString p.price_range.1
    ++ "-$" ++ toString p.price_range.2
    ++ " (" ++ (get_budget_category p.price_range).val
    ++ ")\nâ­ Rating: " ++ toString p.rating
    ++ "/5\nðŸ“ Exact Location: " ++ p.location.name
    ++ ", near " ++ p.location.landmark
    ++ "\nðŸ“ Distance: " ++ distance
    ++ " km from your location\nðŸš¶ Accessibility: " ++ guide
    ++ "\nðŸ•’ Operating Hours: " ++ p.operating_hours
    ++ "\nðŸ“ž Contact: " ++ p.contact_info
    ++ "\nðŸ“ Description: " ++ p.description
    ++ "\n\nWould you like to:\nâ€¢ Call them now (type \"call\")\nâ€¢ Get directions (type \"directions\")\nâ€¢ Compare with other options (type \"compare\")\nâ€¢ Start a new search (type \"new\")\n\nWhat would you like to do?"

/-- The comparison-state fallback message of `_handle_comparison`. -/
def comparisonHelpText : String :=
  "Please type a valid option number or \x27back\x27 to return."

/-- The call message of `_handle_more_details`. -/
def callText (p : ServiceProvider) : String :=
  "ðŸ“ž Calling " ++ p.name ++ " at " ++ p.contact_info
    ++ "...\n\n(In a real implementation, this would initiate a phone call)\n\nType \"back\" to return to details or \"new\" for a new search."

/-- The directions message of `_handle_more_details`. -/
def directionsText (env : ChatEnv) (user_location : Location)
    (p : ServiceProvider) : String :=
  let maps_link := "https://www.google.com/maps/dir/?api=1&destination="
    ++ toString p.location.latitude ++ "," ++ toString p.location.longitude
  "ðŸ—ºï¸ Directions to " ++ p.name
    ++ ":\n\nðŸ“ Location: " ++ p.location.name
    ++ ", near " ++ p.location.landmark
    ++ "\nðŸ“ Distance: " ++ fmt1 (env.dist user_location p.location)
    ++ " km from your location\nðŸš¶ Accessibility: "
    ++ pyTitle (pyReplace p.accessibility "_" " ")
    ++ "\n\nðŸ—ºï¸ *Google Maps Link:*\n" ++ maps_link
    ++ "\n\nðŸ“± *WhatsApp Location:* I\x27ll send the exact location pin to your WhatsApp!\n\nType \"back\" to return to details or \"new\" for a new search."

/-- The detail-state fallback help of `_handle_more_details`. -/
def detailsHelpText : String :=
  "Please choose:\nâ€¢ \"call\" to call the provider\nâ€¢ \"directions\" to get directions\nâ€¢ \"compare\" to compare with other options\nâ€¢ \"back\" to return to results\nâ€¢ \"new\" for a new search"

/-! ### Conversation state machine (`LocationBasedChatbot`) -/

/-- The mutable fields of a `LocationBasedChatbot` instance. -/
structure ChatbotState where
  state : ChatState
  user_location : Option Location
  selected_service : Option String
  budget_range : Option (ℚ × ℚ)
  search_results : List ServiceProvider
  current_options : List ServiceProvider
  providers_db : List ServiceProvider
deriving DecidableEq

/-- `LocationBasedChatbot.__init__`: fresh session in `WELCOME` with the
(empty) static provider database. -/
def initialChatbotState : ChatbotState :=
  { state := .WELCOME
  , user_location := none
  , selected_service := none
  , budget_range := none
  , search_results := []
  , current_options := []
  , providers_db := load_service_providers }

/-- `_reset_conversation`: back to `WELCOME` with all per-conversation
fields cleared (the provider database is untouched). -/
def resetConversation (st : ChatbotState) : ChatbotState :=
  { st with
    state := .WELCOME,
    user_location := none,
    selected_service := none,
    budget_range := none,
    search_results := [],
    current_options := [] }

/-- `_handle_welcome`: move to `ASK_LOCATION` and emit the welcome
prompt. -/
def handle_welcome (st : ChatbotState) : ChatbotState × String :=
  ({ st with state := .ASK_LOCATION }, welcomeTemplate)

/-- `_handle_location_input`. -/
def handle_location_input (env : ChatEnv) (st : ChatbotState)
    (message : String) : ChatbotState × String :=
  let loc := get_location_from_text env message
  ({ st with user_location := some loc, state := .ASK_SERVICE },
   locationConfirmText loc.name)

/-- `_handle_service_input`. -/
def handle_service_input (st : ChatbotState) (message : String) :
    ChatbotState × String :=
  let srv := get_service_type_from_text message
  ({ st with selected_service := some srv, state := .ASK_BUDGET },
   budgetPromptText (pyReplace srv "_" " "))

/-- The budget-parsing cascade at the top of `_handle_budget_input`:
no-preference keywords, then the low, mid and premium bands, then the
first integer token as an upper bound, else no preference. -/
def parse_budget (message : String) : Option (ℚ × ℚ) :=
  if containsSub message "no preference" || containsSub message "any"
      || containsSub message "doesn\x27t matter" then none
  else if containsSub message "low" || containsSub message "under"
      || containsSub message "cheap" then some (0, 50)
  else if containsSub message "mid" || containsSub message "medium" then
    some (50, 150)
  else if containsSub message "premium" || containsSub message "expensive" then
    some (150, 1000)
  else
    match firstIntToken message with
    | some n => some (0, (n : ℚ))
    | none => none

/-- `_handle_budget_input`: store the parsed budget, search with the
default radius, redo the search once with radius 20 km and no budget
when the first attempt comes back empty, then show the results from
`SHOW_RESULTS`.  A session that reaches this handler always carries a
location and a service (the location and service handlers set them
unconditionally); on a hand-crafted session without them the source
would raise inside the search, modelled by the degenerate fallthrough
branch. -/
def handle_budget_input (env : ChatEnv) (st : ChatbotState)
    (message : String) : ChatbotState × String :=
  let br := parse_budget message
  match st.selected_service, st.user_location with
  | some srv, some loc =>
    let first := search_providers env st.providers_db srv loc none br
    let results :=
      if first.isEmpty then
        search_providers env st.providers_db srv loc (some 20) none
      else first
    ({ st with
        budget_range := br,
        search_results := results,
        state := .SHOW_RESULTS },
     if results.isEmpty then noResultsText
     else resultsText env loc results)
  | _, _ => ({ st with budget_range := br }, "")

/-- `_show_detailed_info`: renders the detail card and moves on to
`CONFIRM_CHOICE`.  Without a session location the source raises before
reaching the state assignment, modelled by the identity branch. -/
def show_detailed_info (env : ChatEnv) (st : ChatbotState)
    (p : ServiceProvider) : ChatbotState × String :=
  match st.user_location with
  | some loc =>
    let d := env.dist loc p.location
    ({ st with state := .CONFIRM_CHOICE },
     detailedInfoText p (fmt1 d) (accessibilityGuide p.accessibility (fmt1 d)))
  | none => (st, "")

/-- `_show_comparison`: with fewer than two results it delegates to the
budget handler with input `"any"` (prefixing its answer); otherwise it
renders the three-way comparison without touching the session. -/
def show_comparison (env : ChatEnv) (st : ChatbotState) :
    ChatbotState × String :=
  if st.search_results.length < 2 then
    let inner := handle_budget_input env st "any"
    (inner.1, needTwoText ++ inner.2)
  else
    match st.user_location with
    | some loc => (st, comparisonText env loc st.search_results)
    | none => (st, "")

/-- `_show_more_results` (read-only). -/
def show_more_results (env : ChatEnv) (st : ChatbotState) : String :=
  if st.search_results.length ≤ 3 then noMoreResultsText
  else
    match st.user_location with
    | some loc =>
      "Here are more options:\n\n"
        ++ (List.enumFrom 4 ((st.search_results.drop 3).take 3)).foldl
            (fun s ip => s ++ toString (ip.1 - 3) ++ ". "
              ++ format_provider_info env loc ip.2) ""
        ++ "\nType a number for more details, \x27compare\x27 to compare, or \x27new\x27 for a new search."
    | none => ""

/-- `_handle_results_interaction`: the `SHOW_RESULTS` dispatcher.
`message.isdigit()` followed by `int(message)` is `pyToNat?`; the
selection is valid when `0 <= int(message) - 1 < len(results)`. -/
def handle_results_interaction (env : ChatEnv) (st : ChatbotState)
    (message : String) : ChatbotState × String :=
  if message = "compare" || message = "comparison" then
    show_comparison env { st with state := .COMPARE_OPTIONS }
  else if message = "more" then (st, show_more_results env st)
  else if message = "new" then handle_welcome (resetConversation st)
  else
    match pyToNat? message with
    | some n =>
      if n = 0 then (st, invalidOptionText)
      else
        match st.search_results[n - 1]? with
        | some p =>
          show_detailed_info env
            { st with current_options := [p], state := .GET_MORE_DETAILS } p
        | none => (st, invalidOptionText)
    | none => (st, resultsHelpText)

/-- `_handle_comparison`: the `COMPARE_OPTIONS` dispatcher. -/
def handle_comparison (env : ChatEnv) (st : ChatbotState)
    (message : String) : ChatbotState × String :=
  if message = "back" then
    handle_results_interaction env { st with state := .SHOW_RESULTS } ""
  else
    match pyToNat? message with
    | some n =>
      if n = 0 then (st, comparisonHelpText)
      else
        match st.search_results[n - 1]? with
        | some p =>
          show_detailed_info env
            { st with current_options := [p], state := .GET_MORE_DETAILS } p
        | none => (st, comparisonHelpText)
    | none => (st, comparisonHelpText)

/-- `_handle_more_details` (also `_handle_confirmation`, which
delegates to it): the detail-view dispatcher.  The `call` and
`directions` branches read `current_options[0]` (and the session
location); the source raises on a session without them, modelled by the
identity branches. -/
def handle_more_details (env : ChatEnv) (st : ChatbotState)
    (message : String) : ChatbotState × String :=
  if message = "call" then
    match st.current_options.head? with
    | some p => (st, callText p)
    | none => (st, "")
  else if message = "directions" then
    match st.current_options.head?, st.user_location with
    | some p, some loc => (st, directionsText env loc p)
    | _, _ => (st, "")
  else if message = "compare" || message = "back" then
    handle_results_interaction env { st with state := .SHOW_RESULTS } ""
  else if message = "new" then handle_welcome (resetConversation st)
  else (st, detailsHelpText)

/-- `LocationBasedChatbot.process_message`: lowercase and trim the
inbound message, then dispatch on the session state. -/
def process_message (env : ChatEnv) (st : ChatbotState)
    (user_message : String) : ChatbotState × String :=
  let message := pyStrip (pyLower user_message)
  match st.state with
  | .WELCOME => handle_welcome st
  | .ASK_LOCATION => handle_location_input env st message
  | .ASK_SERVICE => handle_service_input st message
  | .ASK_BUDGET => handle_budget_input env st message
  | .SHOW_RESULTS => handle_results_interaction env st message
  | .COMPARE_OPTIONS => handle_comparison env st message
  | .GET_MORE_DETAILS => handle_more_details env st message
  | .CONFIRM_CHOICE => handle_more_details env st message

/-! ### Decomposition helper and concrete test data -/

/-- The OSM-sourced candidates of one `search_providers` call: empty
when the integration is unavailable or the call raised, else the
providers built from the returned nodes. -/
def osmCandidates (env : ChatEnv) (service_type : String) (user_location : Location)
    (maxD : ℚ) : List ServiceProvider :=
  match env.osm service_type user_location maxD with
  | .success qs => osmFromQueries env.dist service_type user_location maxD qs
  | _ => []

/-- Environment with no reachable collaborators: the Overpass call
raises and the geocoder raises, distances are all zero. -/
def zeroEnv : ChatEnv :=
  { dist := fun _ _ => 0
  , osm := fun _ _ _ => .failure
  , geo := fun _ => .error () }

/-- Environment whose Overpass lookup always returns a single named
node (distances again all zero, so that concrete runs evaluate without
rational normalization). -/
def oneNodeEnv : ChatEnv :=
  { dist := fun _ _ => 0
  , osm := fun _ _ _ => .success [[⟨0, 3, [("name", "Test Clinic")]⟩]]
  , geo := fun _ => .error () }

/-- Concrete session origin used by the test data. -/
def sampleOrigin : Location := ⟨0, 0, "Here", "HL"⟩

/-- The provider `oneNodeEnv`'s single node turns into during a
`"medical"` search of radius 5 around `sampleOrigin`. -/
def sampleOsmProvider : ServiceProvider :=
  { id := "osm_medical_0"
  , name := "Test Clinic"
  , service_type := "medical"
  , location := ⟨0, 3, "Test Clinic", "Dar es Salaam"⟩
  , price_range := (5000, 20000)
  , rating := 4
  , description := "Test Clinic - Medical services"
  , accessibility := "walking"
  , contact_info := "+255-XXX-XXXXXX"
  , operating_hours := "Mon-Sat 8AM-6PM" }

/-- A family of distinct concrete providers. -/
def sampleProvider (i : Nat) : ServiceProvider :=
  { id := toString i
  , name := "P" ++ toString i
  , service_type := "restaurant"
  , location := ⟨0, (i : ℚ), "L" ++ toString i, "LM"⟩
  , price_range := (10, 20)
  , rating := 4
  , description := "d"
  , accessibility := "walking"
  , contact_info := "c"
  , operating_hours := "h" }

/-- A provider priced exactly (50, 100). -/
def sampleProvider50100 : ServiceProvider :=
  { id := "q"
  , name := "Q"
  , service_type := "restaurant"
  , location := ⟨0, 1, "LQ", "LMQ"⟩
  , price_range := (50, 100)
  , rating := 4
  , description := "d"
  , accessibility := "walking"
  , contact_info := "c"
  , operating_hours := "h" }

/-- A concrete `SHOW_RESULTS` session holding five results. -/
def sampleShowResultsState : ChatbotState :=
  { state := .SHOW_RESULTS
  , user_location := some sampleOrigin
  , selected_service := some "restaurant"
  , budget_range := some (0, 100)
  , search_results :=
      [sampleProvider 1, sampleProvider 2, sampleProvider 3,
       sampleProvider 4, sampleProvider 5]
  , current_options := []
  , providers_db := [] }

/-! ### Lemmas about the stable sort -/

theorem mem_insertByKey {α : Type} (key : α → ℚ) (a x : α) (l : List α) :
    x ∈ insertByKey key a l ↔ x = a ∨ x ∈ l := by
  induction l with
  | nil => simp [insertByKey]
  | cons b t ih =>
    by_cases h : key a ≤ key b
    · simp [insertByKey, h]
    · simp only [insertByKey, if_neg h, List.mem_cons, ih]
      tauto

theorem perm_insertByKey {α : Type} (key : α → ℚ) (a : α) (l : List α) :
    (insertByKey key a l).Perm (a :: l) := by
  induction l with
  | nil => simp [insertByKey]
  | cons b t ih =>
    by_cases h : key a ≤ key b
    · simp [insertByKey, h]
    · simp only [insertByKey, if_neg h]
      exact (ih.cons b).trans (List.Perm.swap a b t)

theorem perm_sortByKey {α : Type} (key : α → ℚ) (l : List α) :
    (sortByKey key l).Perm l := by
  induction l with
  | nil => simp [sortByKey]
  | cons a t ih =>
    exact (perm_insertByKey key a (sortByKey key t)).trans (ih.cons a)

theorem mem_sortByKey {α : Type} (key : α → ℚ) (x : α) (l : List α) :
    x ∈ sortByKey key l ↔ x ∈ l :=
  (perm_sortByKey key l).mem_iff

theorem pairwise_insertByKey {α : Type} (key : α → ℚ) (a : α) (l : List α)
    (h : l.Pairwise (fun x y => key x ≤ key y)) :
    (insertByKey key a l).Pairwise (fun x y => key x ≤ key y) := by
  induction l with
  | nil => simp [insertByKey]
  | cons b t ih =>
    rcases List.pairwise_cons.mp h with ⟨hb, ht⟩
    rw [insertByKey]
    by_cases hab : key a ≤ key b
    · rw [if_pos hab]
      refine List.pairwise_cons.mpr ⟨?_, h⟩
      intro x hx
      rcases List.mem_cons.mp hx with rfl | hx
      · exact hab
      · exact le_trans hab (hb x hx)
    · rw [if_neg hab]
      refine List.pairwise_cons.mpr ⟨?_, ih ht⟩
      intro x hx
      rcases (mem_insertByKey key a x t).mp hx with rfl | hx
      · exact le_of_not_le hab
      · exact hb x hx

theorem pairwise_sortByKey {α : Type} (key : α → ℚ) (l : List α) :
    (sortByKey key l).Pairwise (fun x y => key x ≤ key y) := by
  induction l with
  | nil => simp [sortByKey]
  | cons a t ih => exact pairwise_insertByKey key a (sortByKey key t) ih

theorem filter_insertByKey {α : Type} (key : α → ℚ) (k : ℚ) (a : α) (l : List α) :
    (insertByKey key a l).filter (fun x => decide (key x = k)) =
      if key a = k then a :: l.filter (fun x => decide (key x = k))
      else l.filter (fun x => decide (key x = k)) := by
  induction l with
  | nil =>
    by_cases h : key a = k <;> simp [insertByKey, List.filter, h]
  | cons b t ih =>
    rw [insertByKey]
    by_cases hab : key a ≤ key b
    · rw [if_pos hab]
      simp only [List.filter_cons, decide_eq_true_eq]
    · rw [if_neg hab]
      have hba : key b < key a := lt_of_not_le hab
      simp only [List.filter_cons, decide_eq_true_eq]
      rw [ih]
      by_cases hb : key b = k
      · have ha : ¬ key a = k := fun ha2 => ne_of_gt hba (ha2.trans hb.symm)
        simp [hb, ha]
      · by_cases ha : key a = k <;> simp [hb, ha]

theorem filter_sortByKey {α : Type} (key : α → ℚ) (k : ℚ) (l : List α) :
    (sortByKey key l).filter (fun x => decide (key x = k)) =
      l.filter (fun x => decide (key x = k)) := by
  induction l with
  | nil => simp [sortByKey]
  | cons a t ih =>
    rw [sortByKey, filter_insertByKey]
    by_cases h : key a = k <;> simp [List.filter, h, ih]

/-! ### Membership lemmas for the search pipeline -/

theorem mem_osmNodeStep (dist : Location → Location → ℚ) (srv : String)
    (loc : Location) (maxD : ℚ) (acc : List ServiceProvider) (node : OsmNode)
    (p : ServiceProvider) (h : p ∈ osmNodeStep dist srv loc maxD acc node) :
    p ∈ acc ∨ dist loc p.location ≤ maxD := by
  cases htag : tagGet node.tags "name" with
  | none =>
    rw [osmNodeStep, htag] at h
    exact .inl h
  | some nm =>
    rw [osmNodeStep, htag] at h
    by_cases hd : dist loc ⟨node.lat, node.lon, nm, extractLandmarkFromTags node.tags⟩ ≤ maxD
    · simp only [if_pos hd, List.mem_append, List.mem_singleton] at h
      rcases h with h | h
      · exact .inl h
      · subst h
        exact .inr hd
    · simp only [if_neg hd] at h
      exact .inl h

theorem mem_foldl_osmNodeStep (dist : Location → Location → ℚ) (srv : String)
    (loc : Location) (maxD : ℚ) (nodes : List OsmNode)
    (acc : List ServiceProvider) (p : ServiceProvider)
    (h : p ∈ nodes.foldl (osmNodeStep dist srv loc maxD) acc) :
    p ∈ acc ∨ dist loc p.location ≤ maxD := by
  induction nodes generalizing acc with
  | nil => exact .inl h
  | cons n ns ih =>
    rw [List.foldl_cons] at h
    rcases ih _ h with h' | h'
    · exact mem_osmNodeStep dist srv loc maxD acc n p h'
    · exact .inr h'

theorem mem_osmQueriesLoop (dist : Location → Location → ℚ) (srv : String)
    (loc : Location) (maxD : ℚ) (qs : List (List OsmNode))
    (acc : List ServiceProvider) (p : ServiceProvider)
    (h : p ∈ osmQueriesLoop dist srv loc maxD qs acc) :
    p ∈ acc ∨ dist loc p.location ≤ maxD := by
  induction qs generalizing acc with
  | nil => exact .inl h
  | cons q rest ih =>
    rw [osmQueriesLoop] at h
    by_cases h20 : 20 ≤ (q.foldl (osmNodeStep dist srv loc maxD) acc).length
    · rw [if_pos h20] at h
      exact mem_foldl_osmNodeStep dist srv loc maxD q acc p h
    · rw [if_neg h20] at h
      rcases ih _ h with h' | h'
      · exact mem_foldl_osmNodeStep dist srv loc maxD q acc p h'
      · exact .inr h'

theorem mem_osmFromQueries (dist : Location → Location → ℚ) (srv : String)
    (loc : Location) (maxD : ℚ) (qs : List (List OsmNode)) (p : ServiceProvider)
    (h : p ∈ osmFromQueries dist srv loc maxD qs) :
    dist loc p.location ≤ maxD := by
  rw [osmFromQueries] at h
  by_cases hc : osmServiceTypes.contains srv = true
  · rw [if_pos hc] at h
    rcases mem_osmQueriesLoop dist srv loc maxD qs [] p h with h' | h'
    · exact absurd h' (List.not_mem_nil p)
    · exact h'
  · rw [if_neg hc] at h
    exact absurd h (List.not_mem_nil p)

theorem mem_osmCandidates (env : ChatEnv) (srv : String) (loc : Location)
    (maxD : ℚ) (p : ServiceProvider) (h : p ∈ osmCandidates env srv loc maxD) :
    env.dist loc p.location ≤ maxD := by
  rw [osmCandidates] at h
  cases ho : env.osm srv loc maxD with
  | unavailable => rw [ho] at h; exact absurd h (List.not_mem_nil p)
  | failure => rw [ho] at h; exact absurd h (List.not_mem_nil p)
  | success qs => rw [ho] at h; exact mem_osmFromQueries env.dist srv loc maxD qs p h

theorem mem_staticMatches (dist : Location → Location → ℚ)
    (db : List ServiceProvider) (srv : String) (loc : Location) (maxD : ℚ)
    (b? : Option (ℚ × ℚ)) (p : ServiceProvider) :
    p ∈ staticMatches dist db srv loc maxD b? ↔
      p ∈ db ∧ p.service_type = srv ∧ dist loc p.location ≤ maxD
        ∧ budgetKeep b? p = true := by
  rw [staticMatches, List.mem_filter]
  simp only [Bool.and_eq_true, beq_iff_eq, Bool.not_eq_true',
    decide_eq_false_iff_not, not_lt, and_assoc]

theorem mem_search_unsorted (env : ChatEnv) (db : List ServiceProvider)
    (srv : String) (loc : Location) (maxD? : Option ℚ) (b? : Option (ℚ × ℚ))
    (p : ServiceProvider) :
    p ∈ search_unsorted env db srv loc maxD? b? ↔
      ((p ∈ osmCandidates env srv loc (maxD?.getD maxSearchDistanceKm)
          ∨ p ∈ staticMatches env.dist db srv loc (maxD?.getD maxSearchDistanceKm) b?)
        ∧ budgetKeep b? p = true) := by
  rw [search_unsorted.eq_def, osmCandidates]
  cases ho : env.osm srv loc (maxD?.getD maxSearchDistanceKm) with
  | unavailable =>
    simp only [ho, List.isEmpty_nil, if_true]
    cases b? with
    | none => simp [budgetKeep]
    | some b =>
      simp [List.mem_filter, budgetKeep]
  | failure =>
    simp only [ho, ite_self]
    cases b? with
    | none => simp [budgetKeep]
    | some b =>
      simp only [List.mem_filter, budgetKeep, false_or]
      constructor
      · rintro ⟨h1, h2⟩; exact ⟨.inr h1, h2⟩
      · rintro ⟨h1, h2⟩
        rcases h1 with h1 | h1
        · exact absurd h1 (List.not_mem_nil p)
        · exact ⟨h1, h2⟩
  | success qs =>
    simp only [ho]
    by_cases hemp :
        (osmFromQueries env.dist srv loc (maxD?.getD maxSearchDistanceKm) qs
          ++ staticMatches env.dist db srv loc (maxD?.getD maxSearchDistanceKm) b?).isEmpty = true
    · rw [if_pos hemp]
      rcases List.append_eq_nil.mp (List.isEmpty_iff.mp hemp) with ⟨hA, hS⟩
      rw [hA, hS]
      cases b? with
      | none => simp
      | some b => simp
    · rw [if_neg hemp]
      cases b? with
      | none => simp [budgetKeep, List.mem_append]
      | some b =>
        simp only [List.mem_filter, budgetKeep, List.mem_append]

theorem mem_search_providers (env : ChatEnv) (db : List ServiceProvider)
    (srv : String) (loc : Location) (maxD? : Option ℚ) (b? : Option (ℚ × ℚ))
    (p : ServiceProvider) :
    p ∈ search_providers env db srv loc maxD? b? ↔
      p ∈ search_unsorted env db srv loc maxD? b? :=
  mem_sortByKey _ p _

/-! ### Claim theorems -/

/-- C1: for every provider p, origin o and radius r, if p appears in the
list returned by `search_providers(serviceType, o, r, budget)` then the
distance from o to p's location is at most r; this holds on both
candidate paths (the OSM lookup filters each node by the same bound,
and the static-database passes filter by the same bound). -/
theorem search_results_within_radius (env : ChatEnv) (db : List ServiceProvider)
    (srv : String) (loc : Location) (r : ℚ) (b? : Option (ℚ × ℚ))
    (p : ServiceProvider) (h : p ∈ search_providers env db srv loc (some r) b?) :
    env.dist loc p.location ≤ r := by
  have h1 := (mem_search_unsorted env db srv loc (some r) b? p).mp
    ((mem_search_providers env db srv loc (some r) b? p).mp h)
  rcases h1.1 with hA | hS
  · exact mem_osmCandidates env srv loc _ p hA
  · exact ((mem_staticMatches env.dist db srv loc _ b? p).mp hS).2.2.1

/-- Witness for C1: a concrete OSM-sourced provider really is returned
for radius 5, and the theorem bounds its distance. -/
theorem search_results_within_radius_witness :
    sampleOsmProvider ∈ search_providers oneNodeEnv [] "medical" sampleOrigin (some 5) none
      ∧ oneNodeEnv.dist sampleOrigin sampleOsmProvider.location ≤ 5 :=
  ⟨by decide,
   search_results_within_radius oneNodeEnv [] "medical" sampleOrigin 5 none
     sampleOsmProvider (by decide)⟩

/-- C2: the list returned by `search_providers` is sorted ascending by
distance from the origin (each adjacent pair is non-decreasing), it is
a permutation of the unsorted candidate list, and the sort is stable:
for every distance value, the providers at that distance appear in
exactly their pre-sort (collaborator) order. -/
theorem search_results_sorted_stable (env : ChatEnv) (db : List ServiceProvider)
    (srv : String) (loc : Location) (maxD? : Option ℚ) (b? : Option (ℚ × ℚ)) :
    List.Chain'
        (fun a b2 => env.dist loc a.location ≤ env.dist loc b2.location)
        (search_providers env db srv loc maxD? b?)
      ∧ (search_providers env db srv loc maxD? b?).Perm
          (search_unsorted env db srv loc maxD? b?)
      ∧ ∀ k : ℚ,
          (search_providers env db srv loc maxD? b?).filter
              (fun p => decide (env.dist loc p.location = k))
            = (search_unsorted env db srv loc maxD? b?).filter
                (fun p => decide (env.dist loc p.location = k)) :=
  ⟨(pairwise_sortByKey _ _).chain',
   perm_sortByKey _ _,
   fun k => filter_sortByKey _ k _⟩

/-- C3: a candidate appears in the budget-filtered search output exactly
when it appears in the unconstrained output and its price range overlaps
the budget interval inclusively (`candidate.max >= budget.min` and
`candidate.min <= budget.max`); in particular a provider priced exactly
(50, 100) passes the budget filter for budget (100, 150) and for
budget (0, 50). -/
theorem budget_filter_inclusive_overlap :
    (∀ (env : ChatEnv) (db : List ServiceProvider) (srv : String)
        (loc : Location) (maxD? : Option ℚ) (b : ℚ × ℚ) (p : ServiceProvider),
        p ∈ search_providers env db srv loc maxD? (some b) ↔
          p ∈ search_providers env db srv loc maxD? none
            ∧ b.1 ≤ p.price_range.2 ∧ p.price_range.1 ≤ b.2)
      ∧ (∀ p : ServiceProvider, p.price_range = (50, 100) →
          budgetKeep (some (100, 150)) p = true
            ∧ budgetKeep (some (0, 50)) p = true) := by
  constructor
  · intro env db srv loc maxD? b p
    rw [mem_search_providers, mem_search_providers,
      mem_search_unsorted, mem_search_unsorted,
      mem_staticMatches, mem_staticMatches]
    simp only [budgetKeep, Bool.and_eq_true, decide_eq_true_eq, and_true]
    tauto
  · intro p hp
    rw [budgetKeep, budgetKeep, hp]
    exact ⟨by decide, by decide⟩

/-- Witness for C3: the (50, 100)-priced provider concretely passes the
filter for budgets (100, 150) and (0, 50). -/
theorem budget_filter_inclusive_overlap_witness :
    sampleProvider50100.price_range = (50, 100)
      ∧ budgetKeep (some (100, 150)) sampleProvider50100 = true
      ∧ budgetKeep (some (0, 50)) sampleProvider50100 = true :=
  ⟨rfl,
   (budget_filter_inclusive_overlap.2 sampleProvider50100 rfl).1,
   (budget_filter_inclusive_overlap.2 sampleProvider50100 rfl).2⟩

/-- C4: for every `ASK_BUDGET` transition, when the first search (default
radius, parsed budget) is empty exactly one retry runs, with the radius
widened to the fixed 20 km (twice the configured 10 km default) and no
budget filter, and its result is stored as-is; otherwise the first
result is stored as-is — the stored result set is always exactly one of
the two attempts, never a mixture, and the machine moves to
`SHOW_RESULTS`. -/
theorem budget_search_single_broadened_retry (env : ChatEnv) (st : ChatbotState)
    (msg : String) (srv : String) (loc : Location)
    (hst : st.state = .ASK_BUDGET)
    (hsrv : st.selected_service = some srv)
    (hloc : st.user_location = some loc) :
    (2 : ℚ) * maxSearchDistanceKm = 20
      ∧ (process_message env st msg).1.state = .SHOW_RESULTS
      ∧ (process_message env st msg).1.budget_range = parse_budget (pyStrip (pyLower msg))
      ∧ (process_message env st msg).1.search_results =
          (if (search_providers env st.providers_db srv loc none
                (parse_budget (pyStrip (pyLower msg)))).isEmpty then
            search_providers env st.providers_db srv loc (some 20) none
          else
            search_providers env st.providers_db srv loc none
              (parse_budget (pyStrip (pyLower msg)))) := by
  have hp : process_message env st msg = handle_budget_input env st (pyStrip (pyLower msg)) := by
    unfold process_message
    rw [hst]
  have hb : handle_budget_input env st (pyStrip (pyLower msg)) =
      (let br := parse_budget (pyStrip (pyLower msg))
       let first := search_providers env st.providers_db srv loc none br
       let results :=
         if first.isEmpty then
           search_providers env st.providers_db srv loc (some 20) none
         else first
       ({ st with
           budget_range := br,
           search_results := results,
           state := .SHOW_RESULTS },
        if results.isEmpty then noResultsText
        else resultsText env loc results)) := by
    unfold handle_budget_input
    rw [hsrv, hloc]
  refine ⟨by norm_num [maxSearchDistanceKm], ?_, ?_, ?_⟩ <;>
    simp only [hp, hb]

/-- Witness for C4 at a concrete session whose collaborator raises: both
attempts are empty, the retry result (the empty list) is stored and the
machine reaches `SHOW_RESULTS`. -/
theorem budget_search_single_broadened_retry_witness :
    ({ sampleShowResultsState with state := ChatState.ASK_BUDGET } : ChatbotState).state
        = ChatState.ASK_BUDGET
      ∧ (process_message zeroEnv
          { sampleShowResultsState with state := ChatState.ASK_BUDGET } "mid").1.state
        = ChatState.SHOW_RESULTS
      ∧ (process_message zeroEnv
          { sampleShowResultsState with state := ChatState.ASK_BUDGET } "mid").1.search_results
        = [] := by
  have h := budget_search_single_broadened_retry zeroEnv
    { sampleShowResultsState with state := .ASK_BUDGET } "mid" "restaurant"
    sampleOrigin rfl rfl rfl
  refine ⟨rfl, h.2.1, ?_⟩
  rw [h.2.2.2]
  decide

/-- Counterexample to C5 as stated: from a concrete `SHOW_RESULTS`
session with 5 results, input "2" does not leave the machine in
`GET_MORE_DETAILS` (the detail renderer immediately moves on to
`CONFIRM_CHOICE`). -/
theorem select_second_result_counterexample :
    sampleShowResultsState.search_results.length = 5
      ∧ (process_message zeroEnv sampleShowResultsState "2").1.state
          ≠ ChatState.GET_MORE_DETAILS :=
  ⟨rfl, by decide⟩

/-- C5 amended: from `SHOW_RESULTS` with 5 results, input "2" selects
the second result as the one-element `current_options` and emits its
detail card, but the machine ends in `CONFIRM_CHOICE` (set by
`_show_detailed_info` after the dispatcher's transient
`GET_MORE_DETAILS` assignment), not in `GET_MORE_DETAILS`. -/
theorem select_second_result_amended (env : ChatEnv) (st : ChatbotState)
    (hst : st.state = .SHOW_RESULTS) (h5 : st.search_results.length = 5)
    (loc : Location) (hloc : st.user_location = some loc)
    (p : ServiceProvider) (hp : st.search_results[1]? = some p) :
    process_message env st "2" =
      ({ st with current_options := [p], state := .CONFIRM_CHOICE },
        detailedInfoText p (fmt1 (env.dist loc p.location))
          (accessibilityGuide p.accessibility (fmt1 (env.dist loc p.location)))) := by
  have hlen : 1 < st.search_results.length := by omega
  have h1 : process_message env st "2" = handle_results_interaction env st "2" := by
    unfold process_message
    rw [hst]
    rfl
  have h2 : handle_results_interaction env st "2" =
      (match st.search_results[1]? with
       | some q => show_detailed_info env
           { st with current_options := [q], state := .GET_MORE_DETAILS } q
       | none => (st, invalidOptionText)) := rfl
  rw [h1, h2, hp]
  have h3 : ({ st with current_options := [p], state := ChatState.GET_MORE_DETAILS }
      : ChatbotState).user_location = some loc := hloc
  unfold show_detailed_info
  rw [h3]

/-- Witness for the amended C5 on a concrete session. -/
theorem select_second_result_amended_witness :
    sampleShowResultsState.search_results[1]? = some (sampleProvider 2)
      ∧ (process_message zeroEnv sampleShowResultsState "2").1.state
          = ChatState.CONFIRM_CHOICE
      ∧ (process_message zeroEnv sampleShowResultsState "2").1.current_options
          = [sampleProvider 2] := by
  have h := select_second_result_amended zeroEnv sampleShowResultsState rfl rfl
    sampleOrigin rfl (sampleProvider 2) rfl
  exact ⟨rfl, by rw [h], by rw [h]⟩

/-- Counterexample to C6 as stated: from the non-WELCOME state
`COMPARE_OPTIONS`, input "new" neither resets the session fields nor
returns the machine to `WELCOME` (the comparison dispatcher treats
"new" as an unrecognized command). -/
theorem reset_command_counterexample :
    ({ sampleShowResultsState with state := ChatState.COMPARE_OPTIONS }
        : ChatbotState).state ≠ ChatState.WELCOME
      ∧ (process_message zeroEnv
          { sampleShowResultsState with state := ChatState.COMPARE_OPTIONS }
          "new").1.state ≠ ChatState.WELCOME
      ∧ (process_message zeroEnv
          { sampleShowResultsState with state := ChatState.COMPARE_OPTIONS }
          "new").1.user_location ≠ none :=
  ⟨by decide, by decide, by decide⟩

/-- C6 amended: "new" resets `userLocation`, `selectedService`,
`budgetRange` and `searchResults` (and `currentSelection`) to their
initial empty values from the states whose dispatcher recognizes it —
`SHOW_RESULTS`, `GET_MORE_DETAILS` and `CONFIRM_CHOICE` — and the reset
passes through `WELCOME`, whose handler runs immediately, so the
machine ends in `ASK_LOCATION` with the welcome prompt emitted; in
`COMPARE_OPTIONS` (and the ask-states) "new" is not a reset command. -/
theorem reset_command_amended (env : ChatEnv) (st : ChatbotState)
    (h : st.state = .SHOW_RESULTS ∨ st.state = .GET_MORE_DETAILS
        ∨ st.state = .CONFIRM_CHOICE) :
    process_message env st "new" =
      ({ st with
          state := .ASK_LOCATION,
          user_location := none,
          selected_service := none,
          budget_range := none,
          search_results := [],
          current_options := [] },
        welcomeTemplate) := by
  rcases h with h | h | h <;>
    (unfold process_message; rw [h]; rfl)

/-- Witness for the amended C6 on a concrete `SHOW_RESULTS` session. -/
theorem reset_command_amended_witness :
    sampleShowResultsState.state = ChatState.SHOW_RESULTS
      ∧ process_message zeroEnv sampleShowResultsState "new" =
          ({ sampleShowResultsState with
              state := ChatState.ASK_LOCATION,
              user_location := none,
              selected_service := none,
              budget_range := none,
              search_results := [],
              current_options := [] },
            welcomeTemplate) :=
  ⟨rfl, reset_command_amended zeroEnv sampleShowResultsState (Or.inl rfl)⟩

/-- C7: location resolution is total and layered — a gazetteer hit is
returned first; on a gazetteer miss a geocoder hit is returned; when
both miss (a raised geocoder exception included, which
`geocode_location` converts to `none`) the fixed default location is
returned instead of an error. -/
theorem location_resolution_total_chain (env : ChatEnv) (text : String) :
    (∀ l, tanzaniaLocFromText text = some l → get_location_from_text env text = l)
      ∧ (tanzaniaLocFromText text = none → ∀ l,
          geocode_location env text = some l → get_location_from_text env text = l)
      ∧ (tanzaniaLocFromText text = none → geocode_location env text = none →
          get_location_from_text env text = defaultDarLocation)
      ∧ (env.geo (geocodeQuery text) = .error () →
          geocode_location env text = none) := by
  refine ⟨?_, ?_, ?_, ?_⟩
  · intro l hl
    unfold get_location_from_text
    rw [hl]
  · intro hn l hg
    unfold get_location_from_text
    rw [hn, hg]
  · intro hn hg
    unfold get_location_from_text
    rw [hn, hg]
  · intro he
    unfold geocode_location
    rw [he]

/-- Witness for C7: a text matching no gazetteer entry, resolved under
a geocoder that raises, yields the default location. -/
theorem location_resolution_total_chain_witness :
    tanzaniaLocFromText "qqq" = none
      ∧ geocode_location zeroEnv "qqq" = none
      ∧ get_location_from_text zeroEnv "qqq" = defaultDarLocation := by
  have h := location_resolution_total_chain zeroEnv "qqq"
  have h1 : tanzaniaLocFromText "qqq" = none := by decide
  have h2 : geocode_location zeroEnv "qqq" = none := h.2.2.2 rfl
  exact ⟨h1, h2, h.2.2.1 h1 h2⟩

/-- C8: from `SHOW_RESULTS` with 5 results, the out-of-range input "9"
returns the explicit invalid-option message and leaves the whole
session — state, location, service, budget, results and selection —
unchanged. -/
theorem out_of_range_selection_unchanged (env : ChatEnv) (st : ChatbotState)
    (hst : st.state = .SHOW_RESULTS) (h5 : st.search_results.length = 5) :
    process_message env st "9" = (st, invalidOptionText) := by
  have h1 : process_message env st "9" = handle_results_interaction env st "9" := by
    unfold process_message
    rw [hst]
    rfl
  have h2 : handle_results_interaction env st "9" =
      (match st.search_results[8]? with
       | some q => show_detailed_info env
           { st with current_options := [q], state := .GET_MORE_DETAILS } q
       | none => (st, invalidOptionText)) := rfl
  have h3 : st.search_results[8]? = none := List.getElem?_eq_none (by omega)
  rw [h1, h2, h3]

/-- Witness for C8 on a concrete session. -/
theorem out_of_range_selection_unchanged_witness :
    sampleShowResultsState.search_results.length = 5
      ∧ process_message zeroEnv sampleShowResultsState "9"
          = (sampleShowResultsState, invalidOptionText) :=
  ⟨rfl, out_of_range_selection_unchanged zeroEnv sampleShowResultsState rfl rfl⟩

/-- C9: budget-text parsing follows the stated keyword precedence —
no-preference keywords first (no constraint), then the low band
(0, 50), the mid band (50, 150), the premium band (150, 1000), then
the first integer token as upper bound with lower bound 0, and no
preference when no integer occurs; in particular "under $50" parses to
(0, 50) and an `ASK_BUDGET` transition on "under $50" stores
budgetRange (0, 50). -/
theorem budget_parsing_precedence (message : String) :
    ((containsSub message "no preference" || containsSub message "any"
        || containsSub message "doesn\x27t matter") = true →
      parse_budget message = none)
    ∧ ((containsSub message "no preference" || containsSub message "any"
        || containsSub message "doesn\x27t matter") = false →
      (containsSub message "low" || containsSub message "under"
        || containsSub message "cheap") = true →
      parse_budget message = some (0, 50))
    ∧ ((containsSub message "no preference" || containsSub message "any"
        || containsSub message "doesn\x27t matter") = false →
      (containsSub message "low" || containsSub message "under"
        || containsSub message "cheap") = false →
      (containsSub message "mid" || containsSub message "medium") = true →
      parse_budget message = some (50, 150))
    ∧ ((containsSub message "no preference" || containsSub message "any"
        || containsSub message "doesn\x27t matter") = false →
      (containsSub message "low" || containsSub message "under"
        || containsSub message "cheap") = false →
      (containsSub message "mid" || containsSub message "medium") = false →
      (containsSub message "premium" || containsSub message "expensive") = true →
      parse_budget message = some (150, 1000))
    ∧ ((containsSub message "no preference" || containsSub message "any"
        || containsSub message "doesn\x27t matter") = false →
      (containsSub message "low" || containsSub message "under"
        || containsSub message "cheap") = false →
      (containsSub message "mid" || containsSub message "medium") = false →
      (containsSub message "premium" || containsSub message "expensive") = false →
      ∀ n : Nat, firstIntToken message = some n →
      parse_budget message = some (0, (n : ℚ)))
    ∧ ((containsSub message "no preference" || containsSub message "any"
        || containsSub message "doesn\x27t matter") = false →
      (containsSub message "low" || containsSub message "under"
        || containsSub message "cheap") = false →
      (containsSub message "mid" || containsSub message "medium") = false →
      (containsSub message "premium" || containsSub message "expensive") = false →
      firstIntToken message = none →
      parse_budget message = none)
    ∧ parse_budget "under $50" = some (0, 50)
    ∧ (∀ (env : ChatEnv) (st : ChatbotState), st.state = .ASK_BUDGET →
        (process_message env st "under $50").1.budget_range = some (0, 50)) := by
  refine ⟨?_, ?_, ?_, ?_, ?_, ?_, by decide, ?_⟩
  · intro h1
    unfold parse_budget
    rw [if_pos h1]
  · intro h1 h2
    unfold parse_budget
    rw [if_neg (by simp [h1]), if_pos h2]
  · intro h1 h2 h3
    unfold parse_budget
    rw [if_neg (by simp [h1]), if_neg (by simp [h2]), if_pos h3]
  · intro h1 h2 h3 h4
    unfold parse_budget
    rw [if_neg (by simp [h1]), if_neg (by simp [h2]), if_neg (by simp [h3]),
      if_pos h4]
  · intro h1 h2 h3 h4 n hn
    unfold parse_budget
    rw [if_neg (by simp [h1]), if_neg (by simp [h2]), if_neg (by simp [h3]),
      if_neg (by simp [h4]), hn]
  · intro h1 h2 h3 h4 hn
    unfold parse_budget
    rw [if_neg (by simp [h1]), if_neg (by simp [h2]), if_neg (by simp [h3]),
      if_neg (by simp [h4]), hn]
  · intro env st hst
    have h1 : process_message env st "under $50" =
        handle_budget_input env st "under $50" := by
      unfold process_message
      rw [hst]
      rfl
    rw [h1]
    unfold handle_budget_input
    cases hss : st.selected_service <;> cases hul : st.user_location <;> rfl

/-- Witness for C9: the keyword checks and the stored budget on the
concrete input "under $50". -/
theorem budget_parsing_precedence_witness :
    (containsSub "under $50" "no preference" || containsSub "under $50" "any"
        || containsSub "under $50" "doesn\x27t matter") = false
      ∧ (containsSub "under $50" "low" || containsSub "under $50" "under"
        || containsSub "under $50" "cheap") = true
      ∧ parse_budget "under $50" = some (0, 50)
      ∧ (process_message zeroEnv
          { sampleShowResultsState with state := ChatState.ASK_BUDGET }
          "under $50").1.budget_range = some (0, 50) := by
  have h := budget_parsing_precedence "under $50"
  exact ⟨by decide, by decide, h.2.1 (by decide) (by decide),
    h.2.2.2.2.2.2.2 zeroEnv _ rfl⟩

/-- C10: from `SHOW_RESULTS` with fewer than 2 results, "compare" does
not merely re-render — it re-invokes the budget handler with input
"any", which overwrites `budget_range` to `none`, re-runs the search
(replacing `search_results`, via the broadened 20 km retry when the
first attempt is empty), and leaves the machine in `SHOW_RESULTS`
rather than `COMPARE_OPTIONS`. -/
theorem compare_with_few_results (env : ChatEnv) (st : ChatbotState)
    (loc : Location) (srv : String)
    (hst : st.state = .SHOW_RESULTS) (hlen : st.search_results.length < 2)
    (hloc : st.user_location = some loc) (hsrv : st.selected_service = some srv) :
    process_message env st "compare" =
        ((handle_budget_input env { st with state := .COMPARE_OPTIONS } "any").1,
          needTwoText
            ++ (handle_budget_input env { st with state := .COMPARE_OPTIONS } "any").2)
      ∧ (process_message env st "compare").1.state = .SHOW_RESULTS
      ∧ (process_message env st "compare").1.budget_range = none
      ∧ (process_message env st "compare").1.search_results =
          (if (search_providers env st.providers_db srv loc none none).isEmpty then
            search_providers env st.providers_db srv loc (some 20) none
          else search_providers env st.providers_db srv loc none none) := by
  have h1 : process_message env st "compare" = handle_results_interaction env st "compare" := by
    unfold process_message
    rw [hst]
    rfl
  have h2 : handle_results_interaction env st "compare" =
      show_comparison env { st with state := .COMPARE_OPTIONS } := rfl
  have hlen2 : ({ st with state := ChatState.COMPARE_OPTIONS }
      : ChatbotState).search_results.length < 2 := hlen
  have h3 : show_comparison env { st with state := .COMPARE_OPTIONS } =
      ((handle_budget_input env { st with state := .COMPARE_OPTIONS } "any").1,
        needTwoText
          ++ (handle_budget_input env { st with state := .COMPARE_OPTIONS } "any").2) := by
    unfold show_comparison
    rw [if_pos hlen2]
  have hb : handle_budget_input env { st with state := .COMPARE_OPTIONS } "any" =
      (let first := search_providers env st.providers_db srv loc none none
       let results :=
         if first.isEmpty then
           search_providers env st.providers_db srv loc (some 20) none
         else first
       ({ st with
           state := .SHOW_RESULTS,
           budget_range := none,
           search_results := results },
        if results.isEmpty then noResultsText
        else resultsText env loc results)) := by
    unfold handle_budget_input
    rw [show ({ st with state := ChatState.COMPARE_OPTIONS }
          : ChatbotState).selected_service = some srv from hsrv,
        show ({ st with state := ChatState.COMPARE_OPTIONS }
          : ChatbotState).user_location = some loc from hloc]
    rfl
  refine ⟨by rw [h1, h2, h3], ?_, ?_, ?_⟩ <;>
    simp only [h1, h2, h3, hb]

/-- Witness for C10 on a concrete one-result session whose collaborator
raises: the budget is wiped, the results are replaced by the (empty)
re-run, and the machine is back in `SHOW_RESULTS`. -/
theorem compare_with_few_results_witness :
    ({ sampleShowResultsState with search_results := [sampleProvider 1] }
        : ChatbotState).search_results.length < 2
      ∧ (process_message zeroEnv
          { sampleShowResultsState with search_results := [sampleProvider 1] }
          "compare").1.state = ChatState.SHOW_RESULTS
      ∧ (process_message zeroEnv
          { sampleShowResultsState with search_results := [sampleProvider 1] }
          "compare").1.budget_range = none
      ∧ (process_message zeroEnv
          { sampleShowResultsState with search_results := [sampleProvider 1] }
          "compare").1.search_results = [] := by
  have h := compare_with_few_results zeroEnv
    { sampleShowResultsState with search_results := [sampleProvider 1] }
    sampleOrigin "restaurant" rfl (by decide) rfl rfl
  refine ⟨by decide, h.2.1, h.2.2.1, ?_⟩
  rw [h.2.2.2]
  decide
